import Mathlib

/-!
Verification development for the fitnessAI onboarding pipeline.

This file shallowly embeds the client-side onboarding orchestration found in
`src/client/src/pages/auth-page.tsx` (the `handleInitialRegister`,
`handleFitnessComplete` and `handlePsychologicalComplete` handlers and the
`completeUserData` record they build) together with the barrier/support-system
line splitting in `src/client/src/components/PsychologicalAssessment.tsx`.

Modelling conventions:
- JavaScript strings are Lean `String`s (lists of Unicode scalar values).
- JavaScript numbers that the pipeline actually manipulates are integers
  (slider scores, ages, table lookups); they are embedded as `Int`.
- `React` `useState` cells become fields of an explicit `PipelineState`
  record; a handler becomes a function from the old state (plus the data it
  receives and oracles for the remote calls it awaits) to the new state.
- A remote call is an oracle `request → Except String response`; `.error`
  models a rejected/thrown promise, `.ok` a fulfilled one.
- Emitted toasts are collected as a list of their description strings.
-/

/-! ## JavaScript string and number primitives used by the pipeline -/

/-- The set of characters the JavaScript runtime treats as trimmable
whitespace (WhiteSpace and LineTerminator code points). -/
def isJsWhitespace (c : Char) : Bool :=
  c == ' ' || c == '\t' || c == '\n' || c == '\r' ||
  c.toNat == 11 || c.toNat == 12 || c.toNat == 0xa0 || c.toNat == 0x1680 ||
  (0x2000 ≤ c.toNat && c.toNat ≤ 0x200a) ||
  c.toNat == 0x2028 || c.toNat == 0x2029 || c.toNat == 0x202f ||
  c.toNat == 0x205f || c.toNat == 0x3000 || c.toNat == 0xfeff

/-- JavaScript `String.prototype.trim` on a character list. -/
def jsTrimChars (cs : List Char) : List Char :=
  ((cs.dropWhile isJsWhitespace).reverse.dropWhile isJsWhitespace).reverse

/-- JavaScript `String.prototype.trim`. -/
def jsTrim (s : String) : String :=
  String.mk (jsTrimChars s.data)

/-- The first element of JavaScript `s.split(sep)` for a one-character
separator: the characters strictly before the first occurrence of `sep`
(the whole string when `sep` does not occur). -/
def jsSplitHead (sep : Char) (s : String) : String :=
  String.mk (s.data.takeWhile (fun c => c ≠ sep))

/-- Decimal value of a non-empty all-digit character list; `none` otherwise. -/
def decDigitsValue (cs : List Char) : Option Nat :=
  if cs ≠ [] ∧ cs.all Char.isDigit then
    some (cs.foldl (fun a c => a * 10 + (c.toNat - 48)) 0)
  else
    none

/-- JavaScript `Number(s)` (string-to-number coercion), modelled on the
fragment of its domain the pipeline can reach: after trimming whitespace an
empty string converts to `0`, an optionally signed non-empty digit string
converts to the corresponding integer, and any other string in the modelled
fragment (in particular every string containing a `-` or `+` after the first
character, such as `"3-4"` or `"7+"`, or any letter) converts to NaN,
encoded here as `none`.  Fractional, exponent, hexadecimal and `Infinity`
literals do not occur as pipeline inputs and are outside the model. -/
def jsStringToNumber (s : String) : Option Int :=
  match (s.data.dropWhile isJsWhitespace).reverse.dropWhile isJsWhitespace
    |>.reverse with
  | [] => some 0
  | '+' :: ds => (decDigitsValue ds).map (fun n => (n : Int))
  | '-' :: ds => (decDigitsValue ds).map (fun n => -(n : Int))
  | ds => (decDigitsValue ds).map (fun n => (n : Int))

/-- JavaScript `x || 0` applied to the result of a string-to-number
coercion: NaN (`none`) and `±0` are falsy and give `0`; any other number is
returned unchanged. -/
def jsOrZero (o : Option Int) : Int :=
  match o with
  | none => 0
  | some n => if n = 0 then 0 else n

/-! ## JSON serialization (JavaScript `JSON.stringify` / `JSON.parse`)

Only the fragments the pipeline uses are embedded: stringification of
strings, of arrays of strings, and of the three flat object literals built
in `completeUserData`; and parsing of arrays of strings (used to state the
round-trip property of the array encoding). -/

/-- Lower-case hexadecimal digit for a value below 16. -/
def hexDigitChar (n : Nat) : Char :=
  if n < 10 then Char.ofNat (48 + n) else Char.ofNat (87 + n)

/-- `JSON.stringify` escaping of one character inside a double-quoted JSON
string: `"` and `\` get a backslash escape, the five named control
characters get their short escapes, every other control character below
U+0020 becomes a `\u00XX` escape, and all remaining characters are emitted
verbatim. -/
def jsonEscapeChar (c : Char) : List Char :=
  if c = '"' then ['\\', '"']
  else if c = '\\' then ['\\', '\\']
  else if c = '\x08' then ['\\', 'b']
  else if c = '\t' then ['\\', 't']
  else if c = '\n' then ['\\', 'n']
  else if c = '\x0c' then ['\\', 'f']
  else if c = '\r' then ['\\', 'r']
  else if c.toNat < 32 then
    ['\\', 'u', '0', '0', hexDigitChar (c.toNat / 16), hexDigitChar (c.toNat % 16)]
  else [c]

/-- Escape every character of a character list for a JSON string body. -/
def jsonEscape (cs : List Char) : List Char :=
  (cs.map jsonEscapeChar).flatten

/-- `JSON.stringify` of a single string: the escaped body in double
quotes. -/
def jsonQuote (s : String) : String :=
  String.mk ('"' :: jsonEscape s.data ++ ['"'])

/-- Comma-separated body of `JSON.stringify` of an array of strings. -/
def jsonArrayBody : List String → List Char
  | [] => []
  | [s] => '"' :: jsonEscape s.data ++ ['"']
  | s :: rest => ('"' :: jsonEscape s.data ++ ['"']) ++ ',' :: jsonArrayBody rest

/-- `JSON.stringify` of an array of strings, as used for the
`workoutPreferences` and `motivationFactors` record fields
(auth-page.tsx lines 217-218). -/
def jsonStringifyStrings (l : List String) : String :=
  String.mk ('[' :: jsonArrayBody l ++ [']'])

/-- Hexadecimal digit value accepted by `JSON.parse` inside a `\uXXXX`
escape (both letter cases). -/
def hexCharValue (c : Char) : Option Nat :=
  if '0' ≤ c ∧ c ≤ '9' then some (c.toNat - 48)
  else if 'a' ≤ c ∧ c ≤ 'f' then some (c.toNat - 87)
  else if 'A' ≤ c ∧ c ≤ 'F' then some (c.toNat - 55)
  else none

/-- Prepend a decoded character to the result of a string-body parse. -/
def consParsed (c : Char) (o : Option (List Char × List Char)) :
    Option (List Char × List Char) :=
  o.map (fun p => (c :: p.1, p.2))

/-- `JSON.parse` of the body of a double-quoted JSON string, starting just
after the opening quote.  Returns the decoded characters together with the
input remaining after the closing quote.  Raw control characters are
rejected, backslash escapes are decoded, and a `\uXXXX` escape denotes the
character with that code (lone-surrogate codes, which Lean characters cannot
represent and which the encoder never produces, fall back to the default
character). -/
def parseJsonStringBody : List Char → Option (List Char × List Char)
  | [] => none
  | c :: rest =>
    if c = '"' then some ([], rest)
    else if c = '\\' then
      match rest with
      | [] => none
      | d :: r =>
        if d = '"' then consParsed '"' (parseJsonStringBody r)
        else if d = '\\' then consParsed '\\' (parseJsonStringBody r)
        else if d = '/' then consParsed '/' (parseJsonStringBody r)
        else if d = 'b' then consParsed '\x08' (parseJsonStringBody r)
        else if d = 'f' then consParsed '\x0c' (parseJsonStringBody r)
        else if d = 'n' then consParsed '\n' (parseJsonStringBody r)
        else if d = 'r' then consParsed '\r' (parseJsonStringBody r)
        else if d = 't' then consParsed '\t' (parseJsonStringBody r)
        else if d = 'u' then
          match r with
          | h1 :: h2 :: h3 :: h4 :: r2 =>
            match hexCharValue h1, hexCharValue h2, hexCharValue h3, hexCharValue h4 with
            | some a, some b, some c3, some d4 =>
              consParsed (Char.ofNat (a * 4096 + b * 256 + c3 * 16 + d4))
                (parseJsonStringBody r2)
            | _, _, _, _ => none
          | _ => none
        else none
    else if c.toNat < 32 then none
    else consParsed c (parseJsonStringBody rest)

/-- Parse the comma-separated items of a JSON array of strings up to and
including the closing bracket, returning the decoded strings and the
remaining input.  `fuel` bounds the number of items. -/
def parseJsonArrayItems : Nat → List Char → Option (List String × List Char)
  | fuel, '"' :: cs =>
    match parseJsonStringBody cs with
    | none => none
    | some (item, rest) =>
      match rest with
      | ']' :: r => some ([String.mk item], r)
      | ',' :: r =>
        match fuel with
        | 0 => none
        | fuel' + 1 =>
          match parseJsonArrayItems fuel' r with
          | some (items, r2) => some (String.mk item :: items, r2)
          | none => none
      | _ => none
  | _, _ => none

/-- `JSON.parse` restricted to a complete array of strings: the inverse
direction of the structured array encoding. -/
def parseJsonStringArray (s : String) : Option (List String) :=
  match s.data with
  | '[' :: ']' :: [] => some []
  | '[' :: cs =>
    match parseJsonArrayItems cs.length cs with
    | some (items, []) => some items
    | _ => none
  | _ => none

/-! ## Data model (TypeScript interfaces and zod schemas)

Field and structure names follow the source.  `FitnessAssessmentFormData`
is the zod-validated shape from `FitnessAssessment.tsx`,
`PsychologicalAssessmentData` the one from `PsychologicalAssessment.tsx`,
`AnalysisResponse`/`WorkoutPlanResponse` the response interfaces declared at
the top of `auth-page.tsx`, and `InsertUser` the record literal built by
`completeUserData` (auth-page.tsx lines 207-242). -/

/-- Username/password pair collected by the registration form
(`registerSchema` in auth-page.tsx). -/
structure RegisterFormData where
  username : String
  password : String
deriving DecidableEq, Repr

/-- Section `basicInfo` of the fitness assessment form. -/
structure BasicInfo where
  age : Int
  gender : String
  heightFeet : Int
  heightInches : Int
  weight : String
deriving DecidableEq, Repr

/-- Section `fitnessProfile` of the fitness assessment form. -/
structure FitnessProfile where
  fitnessGoal : String
  experienceLevel : String
  currentActivityLevel : String
  workoutPreferences : List String
deriving DecidableEq, Repr

/-- Section `lifestyle` of the fitness assessment form; every field is a
string token chosen from a select widget. -/
structure Lifestyle where
  timeCommitment : String
  occupationType : String
  workSchedule : String
  sleepQuality : String
  stressLevel : String
deriving DecidableEq, Repr

/-- The validated FitnessInput (`FitnessAssessmentFormData`). -/
structure FitnessAssessmentFormData where
  basicInfo : BasicInfo
  fitnessProfile : FitnessProfile
  lifestyle : Lifestyle
deriving DecidableEq, Repr

/-- Section `emotionalDrivers` of the psychological assessment. -/
structure EmotionalDrivers where
  current : List String
  desired : List String
  impact : Int
deriving DecidableEq, Repr

/-- Section `personalVision` of the psychological assessment. -/
structure PersonalVision where
  oneYearGoal : String
  visionSatisfaction : Int
deriving DecidableEq, Repr

/-- Section `readinessAssessment` of the psychological assessment. -/
structure ReadinessAssessment where
  efficacyBeliefs : String
  motivations : String
  challenges : String
  readinessScore : Int
  barriers : List String
  supportSystem : List String
  psychologicalNarrative : String
deriving DecidableEq, Repr

/-- The validated PsychologicalInput (`PsychologicalAssessmentData`). -/
structure PsychologicalAssessmentData where
  emotionalDrivers : EmotionalDrivers
  personalVision : PersonalVision
  readinessAssessment : ReadinessAssessment
deriving DecidableEq, Repr

/-- Five-factor breakdown inside `motivationAnalysis`. -/
structure AnalysisFactors where
  motivation : Int
  commitment : Int
  fitnessLevel : Int
  lifestyle : Int
  narrativeFactor : Int
deriving DecidableEq, Repr

/-- Field `motivationAnalysis` of `AnalysisResponse`; `readinessScore` here
is the remote 0-100 score, distinct from the 1-10 user slider score. -/
structure MotivationAnalysis where
  underlyingMotivations : List String
  readinessScore : Int
  analysisFactors : AnalysisFactors
deriving DecidableEq, Repr

/-- Field `milestones` of `AnalysisResponse`. -/
structure Milestones where
  shortTerm : List String
  midTerm : List String
  longTerm : List String
  explanation : String
deriving DecidableEq, Repr

/-- Field `successPrediction` of `AnalysisResponse`. -/
structure SuccessPrediction where
  successProbability : Int
  confidenceScore : Int
  keyFactors : List String
  recommendations : List String
deriving DecidableEq, Repr

/-- Field `timelinePrediction` of `AnalysisResponse`. -/
structure TimelinePrediction where
  estimatedWeeks : Int
  confidenceScore : Int
  keyFactors : List String
  recommendations : List String
deriving DecidableEq, Repr

/-- The AnalysisResult returned by the behavioral-analysis service. -/
structure AnalysisResponse where
  motivationAnalysis : MotivationAnalysis
  milestones : Milestones
  successPrediction : SuccessPrediction
  timelinePrediction : TimelinePrediction
deriving DecidableEq, Repr

/-- The WorkoutPlan returned by the plan-generation service. -/
structure WorkoutPlanResponse where
  message : String
  biology : Option String
  psychology : Option String
  suggestions : List String
deriving DecidableEq, Repr

/-- The CanonicalAccountRecord: the `InsertUser` record literal submitted to
the registration service (auth-page.tsx lines 207-242). -/
structure InsertUser where
  username : String
  password : String
  age : Int
  gender : String
  heightFeet : Int
  heightInches : Int
  weight : String
  fitnessGoal : String
  experienceLevel : String
  currentActivityLevel : String
  workoutPreferences : String
  motivationFactors : String
  pastAttempts : Int
  confidenceLevel : Int
  timeCommitment : Int
  obstacles : String
  stressLevel : Int
  sleepQuality : Int
  dietaryPreferences : String
  supplementPreferences : String
  occupationType : String
  workSchedule : String
  emotionalDrivers : String
  personalVision : String
  readinessAssessment : String
  injuries : Option String
  medicalConditions : Option String
  additionalNotes : Option String
deriving DecidableEq, Repr

/-! ## Profile Transformer (`completeUserData`, auth-page.tsx 207-242) -/

/-- The numeric value of the stress-level lookup
`\x7b low: 1, moderate: 2, high: 3 \x7d[token] || 0` (auth-page.tsx line
223) on tokens that are not names of inherited `Object.prototype` members:
an own key maps to its table value and any other such token's miss
(`undefined`) is falsy and coerced to `0`.  The full lookup including the
prototype chain is `stressLevelValue` below; the two agree away from the
inherited member names (`stressLevelValue_eq_num`), and every token the
fitness form can submit is an own key. -/
def stressLevelNum : String → Int
  | "low" => 1
  | "moderate" => 2
  | "high" => 3
  | _ => 0

/-- The numeric value of the sleep-quality lookup
`\x7b poor: 1, fair: 2, good: 3, excellent: 4 \x7d[token] || 0`
(auth-page.tsx line 224) on tokens that are not names of inherited
`Object.prototype` members; the full lookup is `sleepQualityValue`
below. -/
def sleepQualityNum : String → Int
  | "poor" => 1
  | "fair" => 2
  | "good" => 3
  | "excellent" => 4
  | _ => 0

/-- Result of a JavaScript object-literal bracket lookup followed by
`|| 0`, as a value: an own numeric property, a truthy member inherited from
`Object.prototype` (a function, or an object for the `__proto__` accessor),
or `undefined` on a complete miss. -/
inductive JsLookupValue where
  | num (n : Int)
  | protoMember (name : String)
  | undef
deriving DecidableEq, Repr

/-- The property names every plain JavaScript object inherits from
`Object.prototype`; a bracket lookup with one of these keys on an object
literal without that own key returns the inherited member, which is
truthy. -/
def objectProtoMemberNames : List String :=
  ["constructor", "hasOwnProperty", "isPrototypeOf",
   "propertyIsEnumerable", "toLocaleString", "toString", "valueOf",
   "__defineGetter__", "__defineSetter__", "__lookupGetter__",
   "__lookupSetter__", "__proto__"]

/-- JavaScript `x || 0` on a lookup result: `undefined` and `0` are falsy
and give `0`; a non-zero number and any inherited member (truthy) pass
through unchanged. -/
def jsTruthyOrZero : JsLookupValue → JsLookupValue
  | JsLookupValue.undef => JsLookupValue.num 0
  | JsLookupValue.num n =>
    if n = 0 then JsLookupValue.num 0 else JsLookupValue.num n
  | JsLookupValue.protoMember name => JsLookupValue.protoMember name

/-- The full stress-level bracket lookup of auth-page.tsx line 223,
prototype chain included: an own key gives its number, a key naming an
inherited `Object.prototype` member gives that member, anything else is
`undefined`. -/
def stressLevelLookup : String → JsLookupValue
  | "low" => JsLookupValue.num 1
  | "moderate" => JsLookupValue.num 2
  | "high" => JsLookupValue.num 3
  | token =>
    if token ∈ objectProtoMemberNames then JsLookupValue.protoMember token
    else JsLookupValue.undef

/-- The full sleep-quality bracket lookup of auth-page.tsx line 224,
prototype chain included. -/
def sleepQualityLookup : String → JsLookupValue
  | "poor" => JsLookupValue.num 1
  | "fair" => JsLookupValue.num 2
  | "good" => JsLookupValue.num 3
  | "excellent" => JsLookupValue.num 4
  | token =>
    if token ∈ objectProtoMemberNames then JsLookupValue.protoMember token
    else JsLookupValue.undef

/-- The value the code assigns to the record's `stressLevel` field for an
arbitrary token: the full bracket lookup followed by `|| 0`. -/
def stressLevelValue (token : String) : JsLookupValue :=
  jsTruthyOrZero (stressLevelLookup token)

/-- The value the code assigns to the record's `sleepQuality` field for an
arbitrary token: the full bracket lookup followed by `|| 0`. -/
def sleepQualityValue (token : String) : JsLookupValue :=
  jsTruthyOrZero (sleepQualityLookup token)

/-- The time-commitment derivation of auth-page.tsx line 221: JavaScript
`Number` applied to the part of the lifestyle time-commitment token before
the first underscore, with `|| 0` turning a falsy result (NaN or 0)
into `0`. -/
def deriveTimeCommitment (token : String) : Int :=
  jsOrZero (jsStringToNumber (jsSplitHead '_' token))

/-- `JSON.stringify(assessmentData.emotionalDrivers)` (auth-page.tsx 229):
object with keys `current`, `desired`, `impact` in declaration order. -/
def jsonStringifyEmotionalDrivers (e : EmotionalDrivers) : String :=
  "\x7b\"current\":" ++ jsonStringifyStrings e.current ++
  ",\"desired\":" ++ jsonStringifyStrings e.desired ++
  ",\"impact\":" ++ toString e.impact ++ "\x7d"

/-- `JSON.stringify(assessmentData.personalVision)` (auth-page.tsx 230). -/
def jsonStringifyPersonalVision (p : PersonalVision) : String :=
  "\x7b\"oneYearGoal\":" ++ jsonQuote p.oneYearGoal ++
  ",\"visionSatisfaction\":" ++ toString p.visionSatisfaction ++ "\x7d"

/-- `JSON.stringify` of the readiness-summary object literal built inline at
auth-page.tsx lines 231-238, embedding the barriers list and the 1-10
readiness score. -/
def jsonStringifyReadinessSummary (r : ReadinessAssessment) : String :=
  "\x7b\"narrative\":" ++ jsonQuote r.psychologicalNarrative ++
  ",\"efficacyBeliefs\":" ++ jsonQuote r.efficacyBeliefs ++
  ",\"motivations\":" ++ jsonQuote r.motivations ++
  ",\"challenges\":" ++ jsonQuote r.challenges ++
  ",\"readinessScore\":" ++ toString r.readinessScore ++
  ",\"barriers\":" ++ jsonStringifyStrings r.barriers ++ "\x7d"

/-- The Profile Transformer: the `completeUserData` record literal of
auth-page.tsx lines 207-242, field by field.  `Number(...)` applied to a
value collected as a number is the identity and `String(...)` applied to a
string likewise, so those coercions disappear in the embedding. -/
def completeUserData (initialRegData : RegisterFormData)
    (fitnessData : FitnessAssessmentFormData)
    (assessmentData : PsychologicalAssessmentData)
    (analysis : AnalysisResponse) : InsertUser :=
  { username := initialRegData.username
    password := initialRegData.password
    age := fitnessData.basicInfo.age
    gender := fitnessData.basicInfo.gender
    heightFeet := fitnessData.basicInfo.heightFeet
    heightInches := fitnessData.basicInfo.heightInches
    weight := fitnessData.basicInfo.weight
    fitnessGoal := fitnessData.fitnessProfile.fitnessGoal
    experienceLevel := fitnessData.fitnessProfile.experienceLevel
    currentActivityLevel := fitnessData.fitnessProfile.currentActivityLevel
    workoutPreferences :=
      jsonStringifyStrings fitnessData.fitnessProfile.workoutPreferences
    motivationFactors :=
      jsonStringifyStrings analysis.motivationAnalysis.underlyingMotivations
    pastAttempts := 0
    confidenceLevel := analysis.motivationAnalysis.readinessScore
    timeCommitment := deriveTimeCommitment fitnessData.lifestyle.timeCommitment
    obstacles :=
      String.intercalate ", " assessmentData.readinessAssessment.barriers
    stressLevel := stressLevelNum fitnessData.lifestyle.stressLevel
    sleepQuality := sleepQualityNum fitnessData.lifestyle.sleepQuality
    dietaryPreferences := "balanced"
    supplementPreferences := "none"
    occupationType := fitnessData.lifestyle.occupationType
    workSchedule := fitnessData.lifestyle.workSchedule
    emotionalDrivers :=
      jsonStringifyEmotionalDrivers assessmentData.emotionalDrivers
    personalVision :=
      jsonStringifyPersonalVision assessmentData.personalVision
    readinessAssessment :=
      jsonStringifyReadinessSummary assessmentData.readinessAssessment
    injuries := none
    medicalConditions := none
    additionalNotes := none }

/-! ## Stage Controller (`AuthPage` handlers, auth-page.tsx) -/

/-- The `AssessmentStep` union type of auth-page.tsx line 78. -/
inductive AssessmentStep where
  | fitness
  | psychological
  | analyzing
  | results
deriving DecidableEq, Repr

/-- The `ComprehensiveResults` interface of auth-page.tsx lines 80-86. -/
structure ComprehensiveResults where
  motivationAnalysis : MotivationAnalysis
  milestones : Milestones
  successPrediction : SuccessPrediction
  timelinePrediction : TimelinePrediction
  workoutPlan : Option WorkoutPlanResponse
deriving DecidableEq, Repr

/-- The pipeline-local `useState` cells of `AuthPage`
(auth-page.tsx lines 90-95). -/
structure PipelineState where
  showAssessment : Bool
  assessmentStep : AssessmentStep
  initialRegData : Option RegisterFormData
  fitnessData : Option FitnessAssessmentFormData
  results : Option ComprehensiveResults
  isAnalyzing : Bool
deriving DecidableEq, Repr

/-- The initial (pre-pipeline) state: every `useState` cell at its declared
initial value. -/
def initialAuthState : PipelineState :=
  { showAssessment := false
    assessmentStep := AssessmentStep.fitness
    initialRegData := none
    fitnessData := none
    results := none
    isAnalyzing := false }

/-- The `handleInitialRegister` handler (auth-page.tsx lines 130-152).
`gate` is the awaited result of `api.checkUsername`: `.ok avail` a fulfilled
response, `.error` a rejection.  Returns the new state together with the
descriptions of the toasts emitted. -/
def handleInitialRegister (s : PipelineState) (data : RegisterFormData)
    (gate : Except String Bool) : PipelineState × List String :=
  match gate with
  | Except.ok available =>
    if available then
      ({ s with initialRegData := some data, showAssessment := true }, [])
    else
      (s, ["Username already exists"])
  | Except.error _ =>
    (s, ["Failed to check username availability"])

/-- The `handleFitnessComplete` handler (auth-page.tsx lines 154-157). -/
def handleFitnessComplete (s : PipelineState)
    (data : FitnessAssessmentFormData) : PipelineState :=
  { s with fitnessData := some data,
           assessmentStep := AssessmentStep.psychological }

/-- The request body sent to `api.analyzeAssessment`
(auth-page.tsx lines 167-182): readiness fields merged with selected
fitness fields. -/
structure AnalyzeRequest where
  psychologicalNarrative : String
  efficacyBeliefs : String
  motivations : String
  challenges : String
  readinessScore : Int
  age : Int
  experienceLevel : String
  currentActivityLevel : String
  sleepQuality : String
  stressLevel : String
  workoutPreferences : List String
  timeCommitment : String
deriving DecidableEq, Repr

/-- Builds the `api.analyzeAssessment` request from the stored FitnessInput
and the submitted PsychologicalInput (auth-page.tsx lines 167-182). -/
def buildAnalyzeRequest (assessmentData : PsychologicalAssessmentData)
    (fitnessData : FitnessAssessmentFormData) : AnalyzeRequest :=
  { psychologicalNarrative :=
      assessmentData.readinessAssessment.psychologicalNarrative
    efficacyBeliefs := assessmentData.readinessAssessment.efficacyBeliefs
    motivations := assessmentData.readinessAssessment.motivations
    challenges := assessmentData.readinessAssessment.challenges
    readinessScore := assessmentData.readinessAssessment.readinessScore
    age := fitnessData.basicInfo.age
    experienceLevel := fitnessData.fitnessProfile.experienceLevel
    currentActivityLevel := fitnessData.fitnessProfile.currentActivityLevel
    sleepQuality := fitnessData.lifestyle.sleepQuality
    stressLevel := fitnessData.lifestyle.stressLevel
    workoutPreferences := fitnessData.fitnessProfile.workoutPreferences
    timeCommitment := fitnessData.lifestyle.timeCommitment }

/-- The request body sent to `api.generateWorkout`
(auth-page.tsx lines 185-194). -/
structure GenerateWorkoutRequest where
  fitnessGoal : String
  experienceLevel : String
  age : Int
  gender : String
  currentActivityLevel : String
  workoutPreferences : List String
  obstacles : List String
  timeCommitment : String
deriving DecidableEq, Repr

/-- Builds the `api.generateWorkout` request (auth-page.tsx lines 185-194);
the barriers list is passed as `obstacles`. -/
def buildWorkoutRequest (assessmentData : PsychologicalAssessmentData)
    (fitnessData : FitnessAssessmentFormData) : GenerateWorkoutRequest :=
  { fitnessGoal := fitnessData.fitnessProfile.fitnessGoal
    experienceLevel := fitnessData.fitnessProfile.experienceLevel
    age := fitnessData.basicInfo.age
    gender := fitnessData.basicInfo.gender
    currentActivityLevel := fitnessData.fitnessProfile.currentActivityLevel
    workoutPreferences := fitnessData.fitnessProfile.workoutPreferences
    obstacles := assessmentData.readinessAssessment.barriers
    timeCommitment := fitnessData.lifestyle.timeCommitment }

/-- Observable remote-call events of one `handlePsychologicalComplete` run:
issuing of each of the three calls and its completion outcome. -/
inductive RemoteEv where
  | analyzeCall
  | analyzeOk
  | analyzeErr
  | workoutCall
  | workoutOk
  | workoutErr
  | registerCall
  | registerOk
  | registerErr
deriving DecidableEq, Repr

/-- The `catch` block of `handlePsychologicalComplete`
(auth-page.tsx lines 251-261) followed by the `finally` block (line 263):
hides the assessment, clears the stored credential and FitnessInput, resets
the step to the fitness stage and clears the analyzing flag.  The `results`
cell is not touched by this block. -/
def failureRollback (s : PipelineState) : PipelineState :=
  { s with showAssessment := false
           initialRegData := none
           fitnessData := none
           assessmentStep := AssessmentStep.fitness
           isAnalyzing := false }

/-- The `handlePsychologicalComplete` handler (auth-page.tsx lines 159-265).
The three oracles model `api.analyzeAssessment`, `api.generateWorkout` and
`registerMutation.mutateAsync`; each is awaited in turn, so the next call is
only issued once the previous one has resolved.  Returns the final state and
the ordered trace of remote-call events. -/
def handlePsychologicalComplete (s : PipelineState)
    (assessmentData : PsychologicalAssessmentData)
    (analyzeSvc : AnalyzeRequest → Except String AnalysisResponse)
    (workoutSvc : GenerateWorkoutRequest → Except String WorkoutPlanResponse)
    (registerSvc : InsertUser → Except String Unit) :
    PipelineState × List RemoteEv :=
  match s.initialRegData, s.fitnessData with
  | some initialRegData, some fitnessData =>
    let s1 : PipelineState :=
      { s with isAnalyzing := true, assessmentStep := AssessmentStep.analyzing }
    match analyzeSvc (buildAnalyzeRequest assessmentData fitnessData) with
    | Except.error _ =>
      (failureRollback s1, [RemoteEv.analyzeCall, RemoteEv.analyzeErr])
    | Except.ok analysis =>
      match workoutSvc (buildWorkoutRequest assessmentData fitnessData) with
      | Except.error _ =>
        (failureRollback s1,
          [RemoteEv.analyzeCall, RemoteEv.analyzeOk,
           RemoteEv.workoutCall, RemoteEv.workoutErr])
      | Except.ok workoutPlan =>
        let s2 : PipelineState :=
          { s1 with
              results := some
                { motivationAnalysis := analysis.motivationAnalysis
                  milestones := analysis.milestones
                  successPrediction := analysis.successPrediction
                  timelinePrediction := analysis.timelinePrediction
                  workoutPlan := some workoutPlan }
              assessmentStep := AssessmentStep.results }
        match registerSvc
            (completeUserData initialRegData fitnessData assessmentData
              analysis) with
        | Except.error _ =>
          (failureRollback s2,
            [RemoteEv.analyzeCall, RemoteEv.analyzeOk,
             RemoteEv.workoutCall, RemoteEv.workoutOk,
             RemoteEv.registerCall, RemoteEv.registerErr])
        | Except.ok _ =>
          ({ s2 with isAnalyzing := false },
            [RemoteEv.analyzeCall, RemoteEv.analyzeOk,
             RemoteEv.workoutCall, RemoteEv.workoutOk,
             RemoteEv.registerCall, RemoteEv.registerOk])
  | _, _ => (s, [])

/-! ## Barrier and support-system collection
(`PsychologicalAssessment.tsx` lines 444-450 and 471-477) -/

/-- JavaScript `s.split(nl)` for a one-character separator `nl`: `n`
separators yield `n + 1` parts, so the result is never empty and an empty
string yields one empty part. -/
def jsSplitChars (sep : Char) : List Char → List (List Char)
  | [] => [[]]
  | c :: cs =>
    if c = sep then [] :: jsSplitChars sep cs
    else
      match jsSplitChars sep cs with
      | h :: t => (c :: h) :: t
      | [] => [[c]]

/-- The barrier/support-system change handler of PsychologicalAssessment.tsx
(lines 448 and 475): split the textarea value on newline characters and keep
the lines whose trimmed form is non-empty.  The same expression produces
both the `barriers` and the `supportSystem` list. -/
def nonBlankLines (text : String) : List String :=
  ((jsSplitChars '\n' text.data).map String.mk).filter
    (fun line => jsTrim line ≠ "")

/-! ## Trace predicates for the sequencing claim -/

/-- Helper sweep for `precededBy`: `seen` records whether `e1` has already
occurred. -/
def precededByAux (e1 e2 : RemoteEv) (seen : Bool) : List RemoteEv → Bool
  | [] => true
  | x :: xs =>
    if x = e2 then seen && precededByAux e1 e2 seen xs
    else precededByAux e1 e2 (seen || x = e1) xs

/-- Every occurrence of `e2` in the trace happens strictly after an
occurrence of `e1`. -/
def precededBy (e1 e2 : RemoteEv) (tr : List RemoteEv) : Bool :=
  precededByAux e1 e2 false tr

/-- True if the event is the issuing of a remote call. -/
def isCallEv : RemoteEv → Bool
  | RemoteEv.analyzeCall => true
  | RemoteEv.workoutCall => true
  | RemoteEv.registerCall => true
  | _ => false

/-- Scan of a trace checking that a call is only issued while no other call
is in flight and that completions match an in-flight call: at every point at
most one remote call is outstanding. -/
def atMostOneInFlight : Bool → List RemoteEv → Bool
  | _, [] => true
  | false, x :: xs => isCallEv x && atMostOneInFlight true xs
  | true, x :: xs => !isCallEv x && atMostOneInFlight false xs

/-- Strict sequencing of one pipeline run: the analysis call completes
before the synthesis call is issued, the synthesis call completes before the
registration call is issued, and no two calls are ever in flight at once. -/
def strictlySequential (tr : List RemoteEv) : Bool :=
  precededBy RemoteEv.analyzeOk RemoteEv.workoutCall tr &&
  precededBy RemoteEv.workoutOk RemoteEv.registerCall tr &&
  atMostOneInFlight false tr

/-! ## Concrete end-to-end scenario inputs (spec section 8) -/

/-- FitnessInput of the end-to-end scenario. -/
def exampleFitnessInput : FitnessAssessmentFormData :=
  { basicInfo :=
      { age := 30, gender := "male", heightFeet := 5, heightInches := 10,
        weight := "180" }
    fitnessProfile :=
      { fitnessGoal := "muscle_gain", experienceLevel := "intermediate",
        currentActivityLevel := "moderately_active",
        workoutPreferences := ["Strength Training"] }
    lifestyle :=
      { timeCommitment := "3-4_hours", occupationType := "sedentary",
        workSchedule := "regular", sleepQuality := "good",
        stressLevel := "moderate" } }

/-- PsychologicalInput of the end-to-end scenario: readiness score 7,
barriers list containing the single entry. -/
def examplePsychInput : PsychologicalAssessmentData :=
  { emotionalDrivers :=
      { current := ["Determined"], desired := ["Confident"], impact := 8 }
    personalVision :=
      { oneYearGoal := "consistent routine", visionSatisfaction := 9 }
    readinessAssessment :=
      { efficacyBeliefs := "confident", motivations := "health",
        challenges := "time", readinessScore := 7,
        barriers := ["time management"], supportSystem := ["spouse"],
        psychologicalNarrative := "ready to start" } }

/-- AnalysisResult of the end-to-end scenario: remote readiness score 72 on
the 0-100 scale. -/
def exampleAnalysis : AnalysisResponse :=
  { motivationAnalysis :=
      { underlyingMotivations := ["health", "energy"], readinessScore := 72,
        analysisFactors :=
          { motivation := 80, commitment := 70, fitnessLevel := 60,
            lifestyle := 65, narrativeFactor := 75 } }
    milestones :=
      { shortTerm := ["walk daily"], midTerm := ["gym 3x"],
        longTerm := ["sustained habit"], explanation := "staged" }
    successPrediction :=
      { successProbability := 78, confidenceScore := 70,
        keyFactors := ["support"], recommendations := ["start small"] }
    timelinePrediction :=
      { estimatedWeeks := 12, confidenceScore := 68,
        keyFactors := ["consistency"], recommendations := ["track"] } }

/-- Registration credential of the end-to-end scenario. -/
def exampleCred : RegisterFormData :=
  { username := "alex", password := "secret123" }

/-- WorkoutPlan used when a concrete synthesis response is needed. -/
def exampleWorkoutPlan : WorkoutPlanResponse :=
  { message := "plan", biology := none, psychology := none,
    suggestions := ["warm up"] }

/-- The state after the availability gate succeeded and both collection
stages completed: credential and FitnessInput stored, psychological stage
active. -/
def collectedState (cred : RegisterFormData)
    (fit : FitnessAssessmentFormData) : PipelineState :=
  handleFitnessComplete
    (handleInitialRegister initialAuthState cred (Except.ok true)).1 fit

/-! ## Claim theorems -/

/-- C1 counterexample: contrary to the claim, the numeric prefix of the
bucket token is not extracted.  JavaScript `Number` rejects the whole
pre-underscore segment, so `"3-4_hours"`, `"5-6_hours"` and `"7+_hours"`
do not yield 3, 5 and 7. -/
theorem timeCommitment_claim_false :
    ¬ (deriveTimeCommitment "3-4_hours" = 3 ∧
       deriveTimeCommitment "5-6_hours" = 5 ∧
       deriveTimeCommitment "7+_hours" = 7) := by decide

/-- C1 (amended): the transformer derives `timeCommitment` by applying
JavaScript `Number` to the whole segment of the bucket token before the
first underscore, with falsy fallback to 0.  All four bucket tokens offered
by the form have a non-numeric segment and therefore yield 0; a token whose
segment is a plain number, such as `"3_hours"`, yields that number; and any
token whose segment does not coerce to a number yields 0. -/
theorem timeCommitment_actual_derivation :
    deriveTimeCommitment "1-2_hours" = 0 ∧
    deriveTimeCommitment "3-4_hours" = 0 ∧
    deriveTimeCommitment "5-6_hours" = 0 ∧
    deriveTimeCommitment "7+_hours" = 0 ∧
    deriveTimeCommitment "3_hours" = 3 ∧
    (∀ token : String, jsStringToNumber (jsSplitHead '_' token) = none →
      deriveTimeCommitment token = 0) := by
  refine ⟨by decide, by decide, by decide, by decide, by decide, ?_⟩
  intro token h
  simp [deriveTimeCommitment, h, jsOrZero]

/-- C1 witness: the amended universal clause evaluated at a token with no
numeric pre-underscore segment. -/
theorem timeCommitment_actual_derivation_witness :
    deriveTimeCommitment "9-5_hours" = 0 :=
  timeCommitment_actual_derivation.2.2.2.2.2 "9-5_hours" (by decide)

/-- C3 counterexample: in the end-to-end scenario the built record's
`timeCommitment` is not 3 (it is 0, because `Number("3-4")` is NaN). -/
theorem e2e_record_timeCommitment_not_three :
    (completeUserData exampleCred exampleFitnessInput examplePsychInput
      exampleAnalysis).timeCommitment ≠ 3 := by decide

/-- C3 (amended): for the end-to-end scenario input the record built by the
Profile Transformer has stressLevel 2, sleepQuality 3, confidenceLevel 72
and obstacles "time management" as claimed, but timeCommitment 0 rather
than 3. -/
theorem e2e_record_fields :
    (completeUserData exampleCred exampleFitnessInput examplePsychInput
      exampleAnalysis).stressLevel = 2 ∧
    (completeUserData exampleCred exampleFitnessInput examplePsychInput
      exampleAnalysis).sleepQuality = 3 ∧
    (completeUserData exampleCred exampleFitnessInput examplePsychInput
      exampleAnalysis).timeCommitment = 0 ∧
    (completeUserData exampleCred exampleFitnessInput examplePsychInput
      exampleAnalysis).confidenceLevel = 72 ∧
    (completeUserData exampleCred exampleFitnessInput examplePsychInput
      exampleAnalysis).obstacles = "time management" := by decide

/-- On tokens that are not inherited member names the full stress lookup
with falsy coercion agrees with its numeric restriction. -/
theorem stressLevelValue_eq_num (token : String)
    (h : token ∉ objectProtoMemberNames) :
    stressLevelValue token = JsLookupValue.num (stressLevelNum token) := by
  by_cases h1 : token = "low"
  · subst h1; decide
  by_cases h2 : token = "moderate"
  · subst h2; decide
  by_cases h3 : token = "high"
  · subst h3; decide
  simp only [stressLevelValue, stressLevelLookup, stressLevelNum]
  rw [if_neg h]
  decide

/-- On tokens that are not inherited member names the full sleep lookup
with falsy coercion agrees with its numeric restriction. -/
theorem sleepQualityValue_eq_num (token : String)
    (h : token ∉ objectProtoMemberNames) :
    sleepQualityValue token = JsLookupValue.num (sleepQualityNum token) := by
  by_cases h1 : token = "poor"
  · subst h1; decide
  by_cases h2 : token = "fair"
  · subst h2; decide
  by_cases h3 : token = "good"
  · subst h3; decide
  by_cases h4 : token = "excellent"
  · subst h4; decide
  simp only [sleepQualityValue, sleepQualityLookup, sleepQualityNum]
  rw [if_neg h]
  decide

/-- C4 counterexample: the mappings are not the claimed total
any-other-token-to-0 tables.  The bracket lookup traverses the prototype
chain, so the token "toString" (and likewise "constructor") returns the
truthy inherited member, which the falsy coercion leaves untouched: the
result is not 0. -/
theorem stress_sleep_proto_counterexample :
    stressLevelValue "toString" = JsLookupValue.protoMember "toString" ∧
    stressLevelValue "toString" ≠ JsLookupValue.num 0 ∧
    sleepQualityValue "constructor" =
      JsLookupValue.protoMember "constructor" ∧
    sleepQualityValue "constructor" ≠ JsLookupValue.num 0 := by decide

/-- C4 (amended): the stress mapping sends low, moderate, high to 1, 2, 3
and the sleep mapping sends poor, fair, good, excellent to 1, 2, 3, 4;
every other token that is not the name of an inherited `Object.prototype`
member maps to 0; a token naming an inherited member (toString,
constructor, valueOf, hasOwnProperty, ...) yields that truthy inherited
member itself rather than 0, because the object-literal bracket lookup
traverses the prototype chain and falls through the falsy-coercion
fallback. -/
theorem stress_sleep_mappings_with_proto_chain :
    stressLevelValue "low" = JsLookupValue.num 1 ∧
    stressLevelValue "moderate" = JsLookupValue.num 2 ∧
    stressLevelValue "high" = JsLookupValue.num 3 ∧
    sleepQualityValue "poor" = JsLookupValue.num 1 ∧
    sleepQualityValue "fair" = JsLookupValue.num 2 ∧
    sleepQualityValue "good" = JsLookupValue.num 3 ∧
    sleepQualityValue "excellent" = JsLookupValue.num 4 ∧
    (∀ s : String, s ≠ "low" → s ≠ "moderate" → s ≠ "high" →
      s ∉ objectProtoMemberNames → stressLevelValue s = JsLookupValue.num 0) ∧
    (∀ s ∈ objectProtoMemberNames,
      stressLevelValue s = JsLookupValue.protoMember s) ∧
    (∀ s : String, s ≠ "poor" → s ≠ "fair" → s ≠ "good" →
      s ≠ "excellent" → s ∉ objectProtoMemberNames →
      sleepQualityValue s = JsLookupValue.num 0) ∧
    (∀ s ∈ objectProtoMemberNames,
      sleepQualityValue s = JsLookupValue.protoMember s) := by
  refine ⟨by decide, by decide, by decide, by decide, by decide, by decide,
    by decide, ?_, ?_, ?_, ?_⟩
  · intro s h1 h2 h3 h4
    simp only [stressLevelValue, stressLevelLookup]
    rw [if_neg h4]
    decide
  · intro s hs
    fin_cases hs <;> decide
  · intro s h1 h2 h3 h4 h5
    simp only [sleepQualityValue, sleepQualityLookup]
    rw [if_neg h5]
    decide
  · intro s hs
    fin_cases hs <;> decide

/-- C4 witness: the default clause at an ordinary unrecognized token and
the prototype-chain clause at an inherited member name, for both
mappings. -/
theorem stress_sleep_mappings_with_proto_chain_witness :
    stressLevelValue "unknown" = JsLookupValue.num 0 ∧
    sleepQualityValue "unknown" = JsLookupValue.num 0 ∧
    stressLevelValue "toString" = JsLookupValue.protoMember "toString" ∧
    sleepQualityValue "valueOf" = JsLookupValue.protoMember "valueOf" :=
  ⟨stress_sleep_mappings_with_proto_chain.2.2.2.2.2.2.2.1 "unknown"
      (by decide) (by decide) (by decide) (by decide),
   stress_sleep_mappings_with_proto_chain.2.2.2.2.2.2.2.2.2.1 "unknown"
      (by decide) (by decide) (by decide) (by decide) (by decide),
   stress_sleep_mappings_with_proto_chain.2.2.2.2.2.2.2.2.1 "toString"
      (by decide),
   stress_sleep_mappings_with_proto_chain.2.2.2.2.2.2.2.2.2.2 "valueOf"
      (by decide)⟩

/-- C5: when the availability gate reports the identifier taken the
controller emits the "Username already exists" toast and leaves the state
untouched; when it reports it available the controller stores the
credential, shows the assessment, and the active step is the fitness
collection stage. -/
theorem gate_unavailable_no_state_change (cred : RegisterFormData) :
    handleInitialRegister initialAuthState cred (Except.ok false) =
      (initialAuthState, ["Username already exists"]) ∧
    handleInitialRegister initialAuthState cred (Except.ok true) =
      ({ initialAuthState with
          initialRegData := some cred, showAssessment := true }, []) ∧
    PipelineState.assessmentStep
        ((handleInitialRegister initialAuthState cred (Except.ok true)).1) =
      AssessmentStep.fitness :=
  ⟨rfl, rfl, rfl⟩

/-- C8: the gate handler distinguishes a reachable-but-taken identifier
(fulfilled response with available false, toast "Username already exists")
from an unreachable service (rejected call, toast "Failed to check username
availability"); the two toasts differ and in both cases the state is
unchanged. -/
theorem gate_distinguishes_taken_from_unreachable (s : PipelineState)
    (cred : RegisterFormData) (msg : String) :
    handleInitialRegister s cred (Except.error msg) =
      (s, ["Failed to check username availability"]) ∧
    handleInitialRegister s cred (Except.ok false) =
      (s, ["Username already exists"]) ∧
    ("Failed to check username availability" : String) ≠
      "Username already exists" :=
  ⟨rfl, rfl, by decide⟩

/-- C9: if the stored credential or the stored FitnessInput is absent, the
completion handler is a no-op: the state is unchanged and no remote call is
made (empty event trace). -/
theorem missing_state_guard_noop (s : PipelineState)
    (assessmentData : PsychologicalAssessmentData)
    (analyzeSvc : AnalyzeRequest → Except String AnalysisResponse)
    (workoutSvc : GenerateWorkoutRequest → Except String WorkoutPlanResponse)
    (registerSvc : InsertUser → Except String Unit)
    (h : s.initialRegData = none ∨ s.fitnessData = none) :
    handlePsychologicalComplete s assessmentData analyzeSvc workoutSvc
      registerSvc = (s, []) := by
  unfold handlePsychologicalComplete
  rcases h with h | h
  · rw [h]
  · rw [h]
    cases s.initialRegData <;> rfl

/-- C9 witness: the guard evaluated at the initial state, in which both
cells are empty. -/
theorem missing_state_guard_noop_witness :
    handlePsychologicalComplete initialAuthState examplePsychInput
      (fun _ => Except.ok exampleAnalysis)
      (fun _ => Except.ok exampleWorkoutPlan)
      (fun _ => Except.ok ()) = (initialAuthState, []) :=
  missing_state_guard_noop initialAuthState examplePsychInput _ _ _
    (Or.inl rfl)

/-- C2 counterexample: a forced failure of the registration stage (after the
analysis and synthesis calls succeeded) does not return the pipeline to its
pre-pipeline state: the in-flight AnalysisResult/WorkoutPlan stored in the
`results` cell survives the rollback. -/
theorem registration_failure_retains_results :
    (handlePsychologicalComplete
        (collectedState exampleCred exampleFitnessInput) examplePsychInput
        (fun _ => Except.ok exampleAnalysis)
        (fun _ => Except.ok exampleWorkoutPlan)
        (fun _ => Except.error "registration failed")).1 ≠ initialAuthState ∧
    (handlePsychologicalComplete
        (collectedState exampleCred exampleFitnessInput) examplePsychInput
        (fun _ => Except.ok exampleAnalysis)
        (fun _ => Except.ok exampleWorkoutPlan)
        (fun _ => Except.error "registration failed")).1.results ≠ none := by
  constructor
  · intro h
    have hr := congrArg PipelineState.results h
    simp [handlePsychologicalComplete, collectedState, handleFitnessComplete,
      handleInitialRegister, initialAuthState, failureRollback] at hr
  · intro h
    simp [handlePsychologicalComplete, collectedState, handleFitnessComplete,
      handleInitialRegister, initialAuthState, failureRollback] at h

/-- C2 (amended): a forced failure of the analysis stage or of the synthesis
stage does restore the exact pre-pipeline state (credential, FitnessInput
and results all cleared); a forced failure of the registration stage clears
the credential and the FitnessInput and resets the visible stage, but keeps
the already-stored AnalysisResult and WorkoutPlan in the `results` cell, so
the state differs from the pre-pipeline state in exactly that field. -/
theorem failure_rollback_by_stage (cred : RegisterFormData)
    (fit : FitnessAssessmentFormData) (assess : PsychologicalAssessmentData)
    (msg : String) (analysis : AnalysisResponse)
    (plan : WorkoutPlanResponse) :
    (∀ (workoutSvc : GenerateWorkoutRequest → Except String WorkoutPlanResponse)
       (registerSvc : InsertUser → Except String Unit),
      handlePsychologicalComplete (collectedState cred fit) assess
          (fun _ => Except.error msg) workoutSvc registerSvc =
        (initialAuthState, [RemoteEv.analyzeCall, RemoteEv.analyzeErr])) ∧
    (∀ registerSvc : InsertUser → Except String Unit,
      handlePsychologicalComplete (collectedState cred fit) assess
          (fun _ => Except.ok analysis) (fun _ => Except.error msg)
          registerSvc =
        (initialAuthState,
          [RemoteEv.analyzeCall, RemoteEv.analyzeOk,
           RemoteEv.workoutCall, RemoteEv.workoutErr])) ∧
    handlePsychologicalComplete (collectedState cred fit) assess
        (fun _ => Except.ok analysis) (fun _ => Except.ok plan)
        (fun _ => Except.error msg) =
      ({ initialAuthState with
          results := some
            { motivationAnalysis := analysis.motivationAnalysis
              milestones := analysis.milestones
              successPrediction := analysis.successPrediction
              timelinePrediction := analysis.timelinePrediction
              workoutPlan := some plan } },
        [RemoteEv.analyzeCall, RemoteEv.analyzeOk,
         RemoteEv.workoutCall, RemoteEv.workoutOk,
         RemoteEv.registerCall, RemoteEv.registerErr]) :=
  ⟨fun _ _ => rfl, fun _ => rfl, rfl⟩

/-- C7: within one run of the completion handler the remote stages are
strictly sequential: the analysis call completes before the synthesis call
is issued, the synthesis call completes before the registration call is
issued, and at most one call is in flight at any point of the trace. -/
theorem remote_calls_strictly_sequential (s : PipelineState)
    (assess : PsychologicalAssessmentData)
    (analyzeSvc : AnalyzeRequest → Except String AnalysisResponse)
    (workoutSvc : GenerateWorkoutRequest → Except String WorkoutPlanResponse)
    (registerSvc : InsertUser → Except String Unit) :
    strictlySequential
      (handlePsychologicalComplete s assess analyzeSvc workoutSvc
        registerSvc).2 = true := by
  unfold handlePsychologicalComplete
  cases hr : s.initialRegData with
  | none =>
    cases hf : s.fitnessData <;> rfl
  | some cred =>
    cases hf : s.fitnessData with
    | none => rfl
    | some fit =>
      dsimp only
      cases analyzeSvc (buildAnalyzeRequest assess fit) with
      | error e => rfl
      | ok analysis =>
        dsimp only
        cases workoutSvc (buildWorkoutRequest assess fit) with
        | error e => rfl
        | ok plan =>
          dsimp only
          cases registerSvc (completeUserData cred fit assess analysis) <;>
            rfl

/-- If every character of a list is whitespace, trimming it leaves
nothing. -/
theorem jsTrimChars_eq_nil_of_all_ws (cs : List Char)
    (h : ∀ c ∈ cs, isJsWhitespace c = true) : jsTrimChars cs = [] := by
  unfold jsTrimChars
  rw [List.dropWhile_eq_nil_iff.mpr h]
  rfl

/-- C10: every entry of the barriers / support-system list produced from the
textarea is non-blank: it is neither the empty string nor a string made of
whitespace characters only, because every line whose trimmed form is empty
is filtered out. -/
theorem collected_lines_non_blank (text line : String)
    (h : line ∈ nonBlankLines text) :
    line ≠ "" ∧ ¬ (∀ c ∈ line.data, isJsWhitespace c = true) := by
  have hkeep : (jsTrim line ≠ "") := by
    have := (List.mem_filter.mp h).2
    simpa using this
  constructor
  · intro he
    apply hkeep
    rw [he]
    rfl
  · intro hws
    apply hkeep
    show String.mk (jsTrimChars line.data) = ""
    rw [jsTrimChars_eq_nil_of_all_ws line.data hws]

/-- C10 witness: the splitter applied to a text whose middle line is
whitespace-only keeps exactly the two non-blank lines, and the first kept
entry is indeed non-blank. -/
theorem collected_lines_non_blank_witness :
    nonBlankLines "time management\n \nwork stress" =
      ["time management", "work stress"] ∧
    ("time management" : String) ≠ "" ∧
    ¬ (∀ c ∈ ("time management" : String).data, isJsWhitespace c = true) := by
  refine ⟨by decide, ?_⟩
  exact collected_lines_non_blank "time management\n \nwork stress"
    "time management" (by decide)

/-! ## Round-trip of the structured array encoding (claim C6) -/

/-- Decoding a hexadecimal digit emitted by the encoder recovers its
value. -/
theorem hexCharValue_hexDigitChar (n : Nat) (h : n < 16) :
    hexCharValue (hexDigitChar n) = some n := by
  have hfin : ∀ m : Fin 16, hexCharValue (hexDigitChar m.val) = some m.val := by
    decide
  exact hfin ⟨n, h⟩

theorem charOfNat_toNat_small (c : Char) (h : c.toNat < 32) :
    Char.ofNat c.toNat = c := by
  have hv : Nat.isValidChar c.toNat := Or.inl (Nat.lt_trans h (by norm_num))
  unfold Char.ofNat
  rw [dif_pos hv]
  apply Char.eq_of_val_eq
  simp only [Char.ofNatAux]
  apply UInt32.eq_of_toBitVec_eq
  simp [UInt32.ofNat', Char.toNat]
  apply BitVec.eq_of_toNat_eq
  simp
  rfl

theorem parseBody_quote (x : List Char) :
    parseJsonStringBody ('"' :: x) = some ([], x) := by
  rw [parseJsonStringBody.eq_def]
  simp

theorem parseBody_escQuote (x : List Char) :
    parseJsonStringBody ('\\' :: '"' :: x) =
      consParsed '"' (parseJsonStringBody x) := by
  rw [parseJsonStringBody.eq_def]
  simp

theorem parseBody_escBackslash (x : List Char) :
    parseJsonStringBody ('\\' :: '\\' :: x) =
      consParsed '\\' (parseJsonStringBody x) := by
  rw [parseJsonStringBody.eq_def]
  simp

theorem parseBody_escB (x : List Char) :
    parseJsonStringBody ('\\' :: 'b' :: x) =
      consParsed '\x08' (parseJsonStringBody x) := by
  rw [parseJsonStringBody.eq_def]
  simp

theorem parseBody_escT (x : List Char) :
    parseJsonStringBody ('\\' :: 't' :: x) =
      consParsed '\t' (parseJsonStringBody x) := by
  rw [parseJsonStringBody.eq_def]
  simp

theorem parseBody_escN (x : List Char) :
    parseJsonStringBody ('\\' :: 'n' :: x) =
      consParsed '\n' (parseJsonStringBody x) := by
  rw [parseJsonStringBody.eq_def]
  simp

theorem parseBody_escF (x : List Char) :
    parseJsonStringBody ('\\' :: 'f' :: x) =
      consParsed '\x0c' (parseJsonStringBody x) := by
  rw [parseJsonStringBody.eq_def]
  simp

theorem parseBody_escR (x : List Char) :
    parseJsonStringBody ('\\' :: 'r' :: x) =
      consParsed '\r' (parseJsonStringBody x) := by
  rw [parseJsonStringBody.eq_def]
  simp

theorem parseBody_escU (a b : Nat) (ha : a < 16) (hb : b < 16) (x : List Char) :
    parseJsonStringBody
        ('\\' :: 'u' :: '0' :: '0' :: hexDigitChar a :: hexDigitChar b :: x) =
      consParsed (Char.ofNat (a * 16 + b)) (parseJsonStringBody x) := by
  rw [parseJsonStringBody.eq_def]
  simp [hexCharValue_hexDigitChar a ha, hexCharValue_hexDigitChar b hb,
    show hexCharValue '0' = some 0 from by decide]

theorem parseBody_plain (c : Char) (x : List Char) (h1 : ¬ c = '"')
    (h2 : ¬ c = '\\') (h3 : ¬ c.toNat < 32) :
    parseJsonStringBody (c :: x) = consParsed c (parseJsonStringBody x) := by
  rw [parseJsonStringBody.eq_def]
  simp [h1, h2, h3]

theorem parseJsonStringBody_jsonEscape (cs : List Char) :
    ∀ rest, parseJsonStringBody (jsonEscape cs ++ '"' :: rest) = some (cs, rest) := by
  induction cs with
  | nil =>
    intro rest
    exact parseBody_quote rest
  | cons c cs ih =>
    intro rest
    have hexp : jsonEscape (c :: cs) = jsonEscapeChar c ++ jsonEscape cs := by
      simp [jsonEscape]
    rw [hexp, List.append_assoc]
    by_cases h1 : c = '"'
    · subst h1
      simp [jsonEscapeChar]
      rw [parseBody_escQuote, ih]
      rfl
    by_cases h2 : c = '\\'
    · subst h2
      simp [jsonEscapeChar]
      rw [parseBody_escBackslash, ih]
      rfl
    by_cases h3 : c = '\x08'
    · subst h3
      simp [jsonEscapeChar]
      rw [parseBody_escB, ih]
      rfl
    by_cases h4 : c = '\t'
    · subst h4
      simp [jsonEscapeChar]
      rw [parseBody_escT, ih]
      rfl
    by_cases h5 : c = '\n'
    · subst h5
      simp [jsonEscapeChar]
      rw [parseBody_escN, ih]
      rfl
    by_cases h6 : c = '\x0c'
    · subst h6
      simp [jsonEscapeChar]
      rw [parseBody_escF, ih]
      rfl
    by_cases h7 : c = '\r'
    · subst h7
      simp [jsonEscapeChar]
      rw [parseBody_escR, ih]
      rfl
    by_cases h8 : c.toNat < 32
    · have hdiv : c.toNat / 16 < 16 := by
        apply Nat.div_lt_of_lt_mul
        omega
      have hmod : c.toNat % 16 < 16 := Nat.mod_lt _ (by norm_num)
      simp [jsonEscapeChar, h1, h2, h3, h4, h5, h6, h7, h8]
      rw [parseBody_escU (c.toNat / 16) (c.toNat % 16) hdiv hmod,
        show c.toNat / 16 * 16 + c.toNat % 16 = c.toNat from by omega,
        charOfNat_toNat_small c h8, ih]
      rfl
    · simp only [jsonEscapeChar, h1, h2, h3, h4, h5, h6, h7, h8,
        List.cons_append, List.nil_append, if_neg, ite_false, reduceIte,
        if_false]
      rw [parseBody_plain c _ h1 h2 h8, ih]
      rfl

theorem stringMk_data (s : String) : String.mk s.data = s := by
  cases s
  rfl

theorem parseJsonArrayItems_jsonArrayBody :
    ∀ (l : List String) (fuel : Nat), l.length ≤ fuel →
      ∀ (s : String) (r : List Char),
        parseJsonArrayItems fuel (jsonArrayBody (s :: l) ++ ']' :: r) =
          some (s :: l, r) := by
  intro l
  induction l with
  | nil =>
    intro fuel hf s r
    have hb : jsonArrayBody [s] ++ ']' :: r =
        '"' :: (jsonEscape s.data ++ '"' :: ']' :: r) := by
      simp [jsonArrayBody]
    rw [hb, parseJsonArrayItems.eq_def]
    simp [parseJsonStringBody_jsonEscape, stringMk_data]
  | cons s2 l ih =>
    intro fuel hf s r
    have hb : jsonArrayBody (s :: s2 :: l) ++ ']' :: r =
        '"' :: (jsonEscape s.data ++ '"' :: ',' ::
          (jsonArrayBody (s2 :: l) ++ ']' :: r)) := by
      simp [jsonArrayBody]
    rw [hb, parseJsonArrayItems.eq_def]
    cases fuel with
    | zero => simp at hf
    | succ f =>
      have hrec := ih f (by simpa using hf) s2 r
      simp [parseJsonStringBody_jsonEscape, hrec, stringMk_data]

theorem jsonArrayBody_length_ge :
    ∀ (l : List String) (s : String),
      l.length ≤ (jsonArrayBody (s :: l)).length := by
  intro l
  induction l with
  | nil =>
    intro s
    simp
  | cons s2 l ih =>
    intro s
    have h2 := ih s2
    simp only [jsonArrayBody, List.length_append, List.length_cons,
      List.length_nil] at h2 ⊢
    omega

theorem parseJsonStringArray_cons_quote (bs2 : List Char) :
    parseJsonStringArray (String.mk ('[' :: '"' :: bs2)) =
      (match parseJsonArrayItems (('"' :: bs2).length) ('"' :: bs2) with
       | some (items, []) => some items
       | _ => none) := by
  unfold parseJsonStringArray
  simp

theorem parseJsonStringArray_stringify (s : String) (t : List String) :
    parseJsonStringArray (jsonStringifyStrings (s :: t)) = some (s :: t) := by
  obtain ⟨bs, hbs⟩ : ∃ bs, jsonArrayBody (s :: t) = '"' :: bs := by
    cases t <;> exact ⟨_, rfl⟩
  have hfull : jsonArrayBody (s :: t) ++ [']'] = '"' :: (bs ++ [']']) := by
    rw [hbs]
    rfl
  have hfuel : t.length ≤ (jsonArrayBody (s :: t) ++ [']']).length := by
    have := jsonArrayBody_length_ge t s
    simp only [List.length_append, List.length_cons, List.length_nil]
    omega
  have hitems := parseJsonArrayItems_jsonArrayBody t
    ((jsonArrayBody (s :: t) ++ [']']).length) hfuel s []
  have hrepr : jsonStringifyStrings (s :: t) =
      String.mk ('[' :: '"' :: (bs ++ [']'])) := by
    unfold jsonStringifyStrings
    rw [show ('[' : Char) :: jsonArrayBody (s :: t) ++ [']'] =
        '[' :: (jsonArrayBody (s :: t) ++ [']']) from rfl, hfull]
  rw [hrepr, parseJsonStringArray_cons_quote, ← hfull, hitems]

/-- C6: serializing any non-empty list of strings with the structured array
encoding (`JSON.stringify`) and then decoding (`JSON.parse`) yields the
original list in order, including for duplicate entries; the record fields
`workoutPreferences` and `motivationFactors` are exactly this encoding of
the preference list and of the underlying-motivations list. -/
theorem workout_preferences_encoding_roundtrip
    (l : List String) (cred : RegisterFormData)
    (fit : FitnessAssessmentFormData) (assess : PsychologicalAssessmentData)
    (analysis : AnalysisResponse) (h : l ≠ []) :
    parseJsonStringArray (jsonStringifyStrings l) = some l ∧
    (completeUserData cred fit assess analysis).workoutPreferences =
      jsonStringifyStrings fit.fitnessProfile.workoutPreferences ∧
    (completeUserData cred fit assess analysis).motivationFactors =
      jsonStringifyStrings analysis.motivationAnalysis.underlyingMotivations := by
  refine ⟨?_, rfl, rfl⟩
  cases l with
  | nil => exact absurd rfl h
  | cons s t => exact parseJsonStringArray_stringify s t

/-- C6 witness: the round trip evaluated on a two-element list whose entries
look alike but are distinct. -/
theorem workout_preferences_encoding_roundtrip_witness :
    parseJsonStringArray (jsonStringifyStrings ["Cardio", "cardio"]) =
      some ["Cardio", "cardio"] :=
  (workout_preferences_encoding_roundtrip ["Cardio", "cardio"] exampleCred
    exampleFitnessInput examplePsychInput exampleAnalysis (by decide)).1
